import Mathlib

/-!
Verification development for the face-identity pipeline of
`backend/utils/face_recognition_utils.py`: the Encoder
(`generate_face_encoding`) and the Matcher (`compare_faces`,
`recognize_face_from_database`).

The embedding is shallow.  Grayscale images are grids of 8-bit
intensities (`Grid`).  The external OpenCV operations (Haar-cascade
detection, `cv2.resize`, LBPH train + predict) are fields of an
environment record `Env`; each may fail, which models the Python
exceptions the source catches.  Stored enrollment blobs are modelled by
`Stored` (falsy value, text that `json.loads` rejects, or a parsed JSON
value `Json`).  Confidence scores and tolerances are rationals.
-/

namespace FaceRec

/-- A grayscale raster: list of rows of 8-bit intensity values, as a
numpy 2-D `uint8` array is after `tolist()`. -/
abbrev Grid := List (List Nat)

/-- A detected face bounding box `(x, y, w, h)` as returned by
`detectMultiScale`. -/
structure Rect where
  x : Nat
  y : Nat
  w : Nat
  h : Nat
deriving DecidableEq, Repr

/-- A parsed JSON value, as produced by `json.loads`.  Only the parts of
JSON the pipeline inspects are distinguished: integers, arrays, strings;
`other` stands for any remaining JSON value (object, boolean, null,
non-integral number), of which the pipeline only ever asks "is it a
list?". -/
inductive Json where
  | num (n : Int)
  | str (s : String)
  | arr (elems : List Json)
  | other
deriving Repr

/-- The state of the `photo_base64` argument after the decoding helpers:
a falsy string, a string `base64_to_image` fails on, one
`image_to_numpy` fails on, or a photo that decodes and converts to the
grayscale raster `g` (the result of the `cv2.cvtColor` call). -/
inductive Photo where
  | empty
  | undecodable
  | unconvertible
  | gray (g : Grid)
deriving Repr

/-- The state of one stored `face_encoding_json` text blob: falsy
(`None` or empty, the `if not encoding_json` guard), text on which
`json.loads` raises, or text parsing to the JSON value `j`. -/
inductive Stored where
  | empty
  | malformed
  | parsed (j : Json)
deriving Repr

/-- The ambient runtime: the module-level `FACE_RECOGNITION_AVAILABLE`
flag and the three external OpenCV computations the source calls, each
allowed to raise (the `Except.error` case carries the exception text).
`predictTrain` bundles `LBPHFaceRecognizer_create` + `train` on labelled
images + `predict`, returning the predicted label and confidence. -/
structure Env where
  available : Bool
  detect : Grid → Except String (List Rect)
  resize : Grid → Except String Grid
  predictTrain : List (Grid × Nat) → Grid → Except String (Nat × Rat)

/-- Result record of `generate_face_encoding`.  The `encoding` JSON
string of the source is modelled as the grid it serializes
(`json.dumps` / `json.loads` round-trip). -/
structure EncodeResult where
  success : Bool
  encoding : Option Grid
  message : String
  face_count : Nat
deriving DecidableEq, Repr

/-- Result record of `compare_faces`.  The source field `match` is a
Lean keyword and is called `matched` here. -/
structure CompareResult where
  success : Bool
  matched : Bool
  distance : Option Rat
  message : String
deriving DecidableEq, Repr

/-- Result record of `recognize_face_from_database`. -/
structure RecognizeResult where
  success : Bool
  recognized : Bool
  user_id : Option Nat
  distance : Option Rat
  message : String
deriving DecidableEq, Repr

/-- Literal message strings of the source (formatted float parts of the
two parametrized messages are rendered with `toString`). -/
def msgUnavailableEncode : String :=
  "OpenCV (cv2) library not available. Please install: pip install opencv-python"

def msgNoPhoto : String := "No photo provided"

def msgDecodeFail : String := "Failed to decode image"

def msgConvertFail : String := "Failed to convert image to array"

def msgNoFace : String :=
  "No face detected in the photo. Please ensure your face is clearly visible."

def msgMultiFaces (n : Nat) : String :=
  "Multiple faces detected (" ++ toString n ++ "). Please ensure only one face is in the photo."

def msgEncodeOk : String := "Face encoding generated successfully"

def msgEncodeError (e : String) : String := "Error processing face: " ++ e

def msgUnavailable : String := "Face recognition library not available"

def msgCompareError (e : String) : String := "Error comparing faces: " ++ e

def msgMatched : String := "Face matched!"

def msgNotMatched : String := "Face does not match"

def msgNoRegistered : String := "No registered faces in database"

def msgNoValid : String := "No valid face encodings in database"

def msgRecognized (confidence : Rat) : String :=
  "Face recognized (confidence: " ++ toString (100 - confidence) ++ "%)"

def msgNotRecognized : String :=
  "Face not recognized. Please try again or use manual entry."

def msgRecognizeError (e : String) : String := "Error recognizing face: " ++ e

/-- Conversion of a Python integer to `uint8`, as numpy wraps it. -/
def uint8 (n : Int) : Nat := (n % 256).toNat

/-- One row of a would-be 2-D numpy array: a JSON array all of whose
elements are integers. -/
def rowInts (j : Json) : Option (List Int) :=
  match j with
  | .arr xs => xs.mapM (fun x => match x with | .num n => some n | _ => none)
  | _ => none

/-- Models `np.array(j, dtype=np.uint8)` followed by the
`shape == (100, 100)` test of the source: returns the grid exactly when
numpy builds a homogeneous 100x100 integer array from `j` (ragged or
non-integer input makes `np.array` raise, any other shape fails the
shape test; both outcomes make the source skip the sample). -/
def asGrid100 (j : Json) : Option Grid :=
  match j with
  | .arr rows =>
    if rows.length = 100 then
      match rows.mapM rowInts with
      | some rs =>
        if rs.all (fun r => r.length = 100) then
          some (rs.map (fun r => r.map uint8))
        else none
      | none => none
    else none
  | _ => none

/-- Models `np.array(json.loads(known_encoding_json), dtype=np.uint8)`
in `compare_faces` for the two-dimensional payloads this pipeline
stores: a falsy or unparsable blob is the raised-exception case, and so
is a value numpy cannot build as a homogeneous 2-D integer array (for
non-2-D payloads the subsequent LBPH train/predict raises in the
source, reaching the same handler). -/
def npLoad (s : Stored) : Except String Grid :=
  match s with
  | .empty => .error "the JSON object must be str, bytes or bytearray, not NoneType"
  | .malformed => .error "Expecting value: line 1 column 1 (char 0)"
  | .parsed j =>
    match j with
    | .arr rows =>
      match rows.mapM rowInts with
      | some rs =>
        match rs with
        | [] => .ok []
        | r0 :: rest =>
          if rest.all (fun r => r.length = r0.length) then
            .ok ((r0 :: rest).map (fun r => r.map uint8))
          else .error "setting an array element with a sequence"
      | none => .error "invalid literal for uint8"
    | _ => .error "could not build a two-dimensional array"

/-- The slice `gray[y:y+h, x:x+w]` of the source. -/
def crop (g : Grid) (r : Rect) : Grid :=
  ((g.drop r.y).take r.h).map (fun row => (row.drop r.x).take r.w)

/-- Default value of the `tolerance` parameter of `compare_faces`
(source line 156: `tolerance=0.6`). -/
def compare_faces_default_tolerance : Rat := 0.6

/-- Default value of the `tolerance` parameter of
`recognize_face_from_database` (source line 216: `tolerance=0.7`). -/
def recognize_default_tolerance : Rat := 0.7

/-- `generate_face_encoding(photo_base64)`: availability gate, decode
chain, Haar-cascade detection, then the zero / many / one decision on
the detected regions; with exactly one region the face is cropped,
resized to 100x100 and returned as the encoding. -/
def generate_face_encoding (env : Env) (photo : Photo) : EncodeResult :=
  if env.available then
    match photo with
    | .empty => ⟨false, none, msgNoPhoto, 0⟩
    | .undecodable => ⟨false, none, msgDecodeFail, 0⟩
    | .unconvertible => ⟨false, none, msgConvertFail, 0⟩
    | .gray g =>
      match env.detect g with
      | .error e => ⟨false, none, msgEncodeError e, 0⟩
      | .ok [] => ⟨false, none, msgNoFace, 0⟩
      | .ok [r] =>
        match env.resize (crop g r) with
        | .error e => ⟨false, none, msgEncodeError e, 0⟩
        | .ok img => ⟨true, some img, msgEncodeOk, 1⟩
      | .ok faces => ⟨false, none, msgMultiFaces faces.length, faces.length⟩
  else ⟨false, none, msgUnavailableEncode, 0⟩

/-- `compare_faces(known_encoding_json, unknown_photo_base64,
tolerance)`: loads the known encoding, encodes the unknown photo, trains
on the single known image with label 0, predicts, and accepts iff
`confidence < tolerance * 100`.  The `none` encoding arm is the
unreachable guard for a successful encode carrying no encoding (in the
source `json.loads(None)` would raise into the handler). -/
def compare_faces (env : Env) (known : Stored) (photo : Photo) (tolerance : Rat) :
    CompareResult :=
  if env.available then
    match npLoad known with
    | .error e => ⟨false, false, none, msgCompareError e⟩
    | .ok knownImg =>
      if (generate_face_encoding env photo).success then
        match (generate_face_encoding env photo).encoding with
        | none =>
          ⟨false, false, none,
           msgCompareError "the JSON object must be str, bytes or bytearray, not NoneType"⟩
        | some unknownImg =>
          match env.predictTrain [(knownImg, 0)] unknownImg with
          | .error e => ⟨false, false, none, msgCompareError e⟩
          | .ok (_, confidence) =>
            ⟨true, decide (confidence < tolerance * 100), some confidence,
             if confidence < tolerance * 100 then msgMatched else msgNotMatched⟩
      else ⟨false, false, none, (generate_face_encoding env photo).message⟩
  else ⟨false, false, none, msgUnavailable⟩

/-- The mutable training state of the enrollment loop of
`recognize_face_from_database`: the `train_imgs` and `train_labels`
lists and the `user_id_to_label` map.  That Python dict maps each
internal label (assigned densely from 0) to its user id, so it is a
list indexed by label. -/
structure TrainState where
  imgs : List Grid
  labels : List Nat
  labelMap : List Nat
deriving DecidableEq, Repr

/-- One iteration of the `for user_id, encoding_json in
known_faces_dict.items()` loop: skip falsy and unparsable blobs, then
dispatch on the stored shape.  A first element that is a non-empty list
of lists selects the multi-encoding branch (every 100x100 member grid is
added under one fresh label); a first element that is a non-empty list
of scalars selects the legacy single-encoding branch (the whole value is
the grid); anything else is an invalid structure and is skipped.  In
both labelled branches the label is assigned before any shape test, so
the label map grows even if no image survives the test. -/
def processEntry (s : TrainState) (entry : Nat × Stored) : TrainState :=
  match entry.2 with
  | .empty => s
  | .malformed => s
  | .parsed j =>
    match j with
    | .arr (first :: rest) =>
      match first with
      | .arr (f0 :: _) =>
        match f0 with
        | .arr _ =>
          let valid := (first :: rest).filterMap asGrid100
          ⟨s.imgs ++ valid,
           s.labels ++ valid.map (fun _ => s.labelMap.length),
           s.labelMap ++ [entry.1]⟩
        | _ =>
          match asGrid100 j with
          | some g =>
            ⟨s.imgs ++ [g], s.labels ++ [s.labelMap.length], s.labelMap ++ [entry.1]⟩
          | none => ⟨s.imgs, s.labels, s.labelMap ++ [entry.1]⟩
      | _ => s
    | _ => s

/-- The whole enrollment loop over the (insertion-ordered) database
mapping. -/
def trainFold (known : List (Nat × Stored)) : TrainState :=
  known.foldl processEntry ⟨[], [], []⟩

/-- The failure result shape every failure path of
`recognize_face_from_database` returns. -/
def recognizeFail (msg : String) : RecognizeResult :=
  ⟨false, false, none, none, msg⟩

/-- `recognize_face_from_database(unknown_photo_base64,
known_faces_dict, tolerance)`: availability gate, empty-database fast
fail, query encoding, enrollment loop, empty-training-set fail, LBPH
train + predict, and the `confidence < tolerance * 100` decision with
label-to-user resolution on acceptance. -/
def recognize_face_from_database (env : Env) (photo : Photo)
    (known : List (Nat × Stored)) (tolerance : Rat) : RecognizeResult :=
  if env.available then
    if known.isEmpty then recognizeFail msgNoRegistered
    else
      if (generate_face_encoding env photo).success then
        match (generate_face_encoding env photo).encoding with
        | none =>
          recognizeFail
            (msgRecognizeError "the JSON object must be str, bytes or bytearray, not NoneType")
        | some unknownImg =>
          if (trainFold known).imgs.isEmpty then recognizeFail msgNoValid
          else
            match env.predictTrain
                ((trainFold known).imgs.zip (trainFold known).labels) unknownImg with
            | .error e => recognizeFail (msgRecognizeError e)
            | .ok (label, confidence) =>
              ⟨true, decide (confidence < tolerance * 100),
               if confidence < tolerance * 100 then (trainFold known).labelMap[label]? else none,
               some confidence,
               if confidence < tolerance * 100 then msgRecognized confidence
               else msgNotRecognized⟩
      else recognizeFail (generate_face_encoding env photo).message
  else recognizeFail msgUnavailable

/-! Evaluation lemmas: one per branch of each entry point, and a case
disjunction saying every result is either one of the failure records or
the prediction-threshold record. -/

theorem generate_unavailable (env : Env) (photo : Photo) (h : env.available = false) :
    generate_face_encoding env photo = ⟨false, none, msgUnavailableEncode, 0⟩ := by
  simp [generate_face_encoding, h]

theorem generate_one_face (env : Env) (g : Grid) (r : Rect) (img : Grid)
    (hav : env.available = true) (hd : env.detect g = Except.ok [r])
    (hr : env.resize (crop g r) = Except.ok img) :
    generate_face_encoding env (Photo.gray g) = ⟨true, some img, msgEncodeOk, 1⟩ := by
  simp [generate_face_encoding, hav, hd, hr]

theorem generate_cases (env : Env) (photo : Photo) :
    ((generate_face_encoding env photo).success = false
      ∧ (generate_face_encoding env photo).encoding = none)
  ∨ (∃ g r img, env.available = true ∧ photo = Photo.gray g
      ∧ env.detect g = Except.ok [r] ∧ env.resize (crop g r) = Except.ok img
      ∧ generate_face_encoding env photo = ⟨true, some img, msgEncodeOk, 1⟩) := by
  cases hav : env.available with
  | false => exact Or.inl (by simp [generate_face_encoding, hav])
  | true =>
    cases photo with
    | empty => exact Or.inl (by simp [generate_face_encoding, hav])
    | undecodable => exact Or.inl (by simp [generate_face_encoding, hav])
    | unconvertible => exact Or.inl (by simp [generate_face_encoding, hav])
    | gray g =>
      cases hd : env.detect g with
      | error e => exact Or.inl (by simp [generate_face_encoding, hav, hd])
      | ok faces =>
        match faces, hd with
        | [], hd => exact Or.inl (by simp [generate_face_encoding, hav, hd])
        | [r], hd =>
          cases hr : env.resize (crop g r) with
          | error e => exact Or.inl (by simp [generate_face_encoding, hav, hd, hr])
          | ok img =>
            exact Or.inr ⟨g, r, img, rfl, rfl, hd, hr,
              by simp [generate_face_encoding, hav, hd, hr]⟩
        | f1 :: f2 :: fs, hd => exact Or.inl (by simp [generate_face_encoding, hav, hd])

theorem recognize_unavailable (env : Env) (photo : Photo) (known : List (Nat × Stored))
    (tol : Rat) (h : env.available = false) :
    recognize_face_from_database env photo known tol = recognizeFail msgUnavailable := by
  simp [recognize_face_from_database, h]

theorem recognize_empty_db (env : Env) (photo : Photo) (tol : Rat)
    (hav : env.available = true) :
    recognize_face_from_database env photo [] tol = recognizeFail msgNoRegistered := by
  simp [recognize_face_from_database, hav]

theorem recognize_encode_fail (env : Env) (photo : Photo) (known : List (Nat × Stored))
    (tol : Rat) (hav : env.available = true) (hk : known ≠ [])
    (hs : (generate_face_encoding env photo).success = false) :
    recognize_face_from_database env photo known tol
      = recognizeFail (generate_face_encoding env photo).message := by
  cases known with
  | nil => exact absurd rfl hk
  | cons a as => simp [recognize_face_from_database, hav, hs]

theorem recognize_no_valid (env : Env) (photo : Photo) (known : List (Nat × Stored))
    (tol : Rat) (q : Grid) (hav : env.available = true) (hk : known ≠ [])
    (hs : (generate_face_encoding env photo).success = true)
    (he : (generate_face_encoding env photo).encoding = some q)
    (ht : (trainFold known).imgs = []) :
    recognize_face_from_database env photo known tol = recognizeFail msgNoValid := by
  cases known with
  | nil => exact absurd rfl hk
  | cons a as => simp [recognize_face_from_database, hav, hs, he, ht]

theorem recognize_predict_error (env : Env) (photo : Photo) (known : List (Nat × Stored))
    (tol : Rat) (q : Grid) (e : String) (hav : env.available = true) (hk : known ≠ [])
    (hs : (generate_face_encoding env photo).success = true)
    (he : (generate_face_encoding env photo).encoding = some q)
    (ht : (trainFold known).imgs ≠ [])
    (hp : env.predictTrain ((trainFold known).imgs.zip (trainFold known).labels) q
      = Except.error e) :
    recognize_face_from_database env photo known tol
      = recognizeFail (msgRecognizeError e) := by
  cases known with
  | nil => exact absurd rfl hk
  | cons a as =>
    simp [recognize_face_from_database, hav, hs, he, hp, List.isEmpty_iff, ht]

theorem recognize_predict_ok (env : Env) (photo : Photo) (known : List (Nat × Stored))
    (tol : Rat) (q : Grid) (label : Nat) (confidence : Rat)
    (hav : env.available = true) (hk : known ≠ [])
    (hs : (generate_face_encoding env photo).success = true)
    (he : (generate_face_encoding env photo).encoding = some q)
    (ht : (trainFold known).imgs ≠ [])
    (hp : env.predictTrain ((trainFold known).imgs.zip (trainFold known).labels) q
      = Except.ok (label, confidence)) :
    recognize_face_from_database env photo known tol =
      ⟨true, decide (confidence < tol * 100),
       if confidence < tol * 100 then (trainFold known).labelMap[label]? else none,
       some confidence,
       if confidence < tol * 100 then msgRecognized confidence else msgNotRecognized⟩ := by
  cases known with
  | nil => exact absurd rfl hk
  | cons a as =>
    simp [recognize_face_from_database, hav, hs, he, hp, List.isEmpty_iff, ht]

theorem recognize_cases (env : Env) (photo : Photo) (known : List (Nat × Stored))
    (tol : Rat) :
    (∃ msg, recognize_face_from_database env photo known tol = recognizeFail msg)
  ∨ (∃ q label confidence,
      env.available = true ∧ known ≠ []
      ∧ (generate_face_encoding env photo).success = true
      ∧ (generate_face_encoding env photo).encoding = some q
      ∧ (trainFold known).imgs ≠ []
      ∧ env.predictTrain ((trainFold known).imgs.zip (trainFold known).labels) q
          = Except.ok (label, confidence)
      ∧ recognize_face_from_database env photo known tol =
          ⟨true, decide (confidence < tol * 100),
           if confidence < tol * 100 then (trainFold known).labelMap[label]? else none,
           some confidence,
           if confidence < tol * 100 then msgRecognized confidence
           else msgNotRecognized⟩) := by
  cases hav : env.available with
  | false => exact Or.inl ⟨_, recognize_unavailable env photo known tol hav⟩
  | true =>
    by_cases hk : known = []
    · subst hk
      exact Or.inl ⟨_, recognize_empty_db env photo tol hav⟩
    · cases hs : (generate_face_encoding env photo).success with
      | false => exact Or.inl ⟨_, recognize_encode_fail env photo known tol hav hk hs⟩
      | true =>
        rcases generate_cases env photo with ⟨hs2, _⟩ | ⟨g, r, img, _, _, _, _, heq⟩
        · rw [hs] at hs2
          cases hs2
        · have he : (generate_face_encoding env photo).encoding = some img := by
            rw [heq]
          by_cases ht : (trainFold known).imgs = []
          · exact Or.inl ⟨_, recognize_no_valid env photo known tol img hav hk hs he ht⟩
          · cases hp : env.predictTrain
                ((trainFold known).imgs.zip (trainFold known).labels) img with
            | error e =>
              exact Or.inl ⟨_,
                recognize_predict_error env photo known tol img e hav hk hs he ht hp⟩
            | ok p =>
              obtain ⟨label, confidence⟩ := p
              exact Or.inr ⟨img, label, confidence, rfl, hk, rfl, he, ht, hp,
                recognize_predict_ok env photo known tol img label confidence
                  hav hk hs he ht hp⟩

theorem compare_unavailable (env : Env) (kj : Stored) (photo : Photo) (tol : Rat)
    (h : env.available = false) :
    compare_faces env kj photo tol = ⟨false, false, none, msgUnavailable⟩ := by
  simp [compare_faces, h]

theorem compare_load_error (env : Env) (kj : Stored) (photo : Photo) (tol : Rat)
    (e : String) (hav : env.available = true) (hl : npLoad kj = Except.error e) :
    compare_faces env kj photo tol = ⟨false, false, none, msgCompareError e⟩ := by
  simp [compare_faces, hav, hl]

theorem compare_predict_ok (env : Env) (kj : Stored) (photo : Photo) (tol : Rat)
    (knownImg q : Grid) (label : Nat) (confidence : Rat)
    (hav : env.available = true) (hl : npLoad kj = Except.ok knownImg)
    (hs : (generate_face_encoding env photo).success = true)
    (he : (generate_face_encoding env photo).encoding = some q)
    (hp : env.predictTrain [(knownImg, 0)] q = Except.ok (label, confidence)) :
    compare_faces env kj photo tol =
      ⟨true, decide (confidence < tol * 100), some confidence,
       if confidence < tol * 100 then msgMatched else msgNotMatched⟩ := by
  simp [compare_faces, hav, hl, hs, he, hp]

theorem compare_cases (env : Env) (kj : Stored) (photo : Photo) (tol : Rat) :
    (∃ msg, compare_faces env kj photo tol = ⟨false, false, none, msg⟩)
  ∨ (∃ knownImg q label confidence,
      env.available = true ∧ npLoad kj = Except.ok knownImg
      ∧ (generate_face_encoding env photo).success = true
      ∧ (generate_face_encoding env photo).encoding = some q
      ∧ env.predictTrain [(knownImg, 0)] q = Except.ok (label, confidence)
      ∧ compare_faces env kj photo tol =
          ⟨true, decide (confidence < tol * 100), some confidence,
           if confidence < tol * 100 then msgMatched else msgNotMatched⟩) := by
  cases hav : env.available with
  | false => exact Or.inl ⟨_, compare_unavailable env kj photo tol hav⟩
  | true =>
    cases hl : npLoad kj with
    | error e => exact Or.inl ⟨_, compare_load_error env kj photo tol e hav hl⟩
    | ok knownImg =>
      cases hs : (generate_face_encoding env photo).success with
      | false =>
        exact Or.inl ⟨(generate_face_encoding env photo).message,
          by simp [compare_faces, hav, hl, hs]⟩
      | true =>
        rcases generate_cases env photo with ⟨hs2, _⟩ | ⟨g, r, img, _, _, _, _, heq⟩
        · rw [hs] at hs2
          cases hs2
        · have he : (generate_face_encoding env photo).encoding = some img := by
            rw [heq]
          cases hp : env.predictTrain [(knownImg, 0)] img with
          | error e =>
            exact Or.inl ⟨msgCompareError e,
              by simp [compare_faces, hav, hl, hs, he, hp]⟩
          | ok p =>
            obtain ⟨label, confidence⟩ := p
            exact Or.inr ⟨knownImg, img, label, confidence, rfl, rfl, rfl, he, hp,
              compare_predict_ok env kj photo tol knownImg img label confidence
                hav hl hs he hp⟩

/-! Specification of the enrollment loop.  `gridsOf` names, following
the spec's words, the valid 100x100 grids one stored entry contributes
under the two accepted persisted shapes (current: JSON array of 2-D
grids; legacy: one bare 2-D grid); `consumesLabel` says whether the loop
assigns the entry an internal label.  `specImgs` / `specLabels` /
`specLabelMap` / `specPairs` restate the whole loop as a transparent
recursion, proved equal to the folded `trainFold`. -/

/-- The elements of a JSON array (and nothing for any other value). -/
def jsonElems : Json → List Json
  | .arr xs => xs
  | _ => []

/-- The valid 100x100 grids a stored entry contributes to training:
for the current multi-sample shape, every member grid that parses at
100x100; for the legacy single-sample shape, the whole value if it
parses at 100x100. -/
def gridsOf : Stored → List Grid
  | .parsed (Json.arr (first :: rest)) =>
    match first with
    | .arr (f0 :: _) =>
      match f0 with
      | .arr _ => (first :: rest).filterMap asGrid100
      | _ => (asGrid100 (Json.arr (first :: rest))).toList
    | _ => []
  | _ => []

/-- Whether the enrollment loop assigns the entry an internal label:
exactly when the parsed value is a non-empty array whose first element
is a non-empty array. -/
def consumesLabel : Stored → Bool
  | .parsed (Json.arr (first :: _)) =>
    match first with
    | .arr (_ :: _) => true
    | _ => false
  | _ => false

theorem gridsOf_eq_nil (e : Stored) (h : consumesLabel e = false) : gridsOf e = [] := by
  cases e with
  | empty => rfl
  | malformed => rfl
  | parsed j =>
    cases j with
    | num n => rfl
    | str s => rfl
    | other => rfl
    | arr xs =>
      cases xs with
      | nil => rfl
      | cons first rest =>
        cases first with
        | num n => rfl
        | str s => rfl
        | other => rfl
        | arr ys =>
          cases ys with
          | nil => rfl
          | cons f0 ftail => simp [consumesLabel] at h

theorem consumesLabel_of_mem (e : Stored) (g : Grid) (hg : g ∈ gridsOf e) :
    consumesLabel e = true := by
  cases hc : consumesLabel e with
  | true => rfl
  | false =>
    rw [gridsOf_eq_nil e hc] at hg
    cases hg

theorem processEntry_spec (s : TrainState) (uid : Nat) (e : Stored) :
    processEntry s (uid, e) =
      ⟨s.imgs ++ gridsOf e,
       s.labels ++ (gridsOf e).map (fun _ => s.labelMap.length),
       s.labelMap ++ (if consumesLabel e then [uid] else [])⟩ := by
  cases e with
  | empty => simp [processEntry, gridsOf, consumesLabel]
  | malformed => simp [processEntry, gridsOf, consumesLabel]
  | parsed j =>
    cases j with
    | num n => simp [processEntry, gridsOf, consumesLabel]
    | str t => simp [processEntry, gridsOf, consumesLabel]
    | other => simp [processEntry, gridsOf, consumesLabel]
    | arr xs =>
      cases xs with
      | nil => simp [processEntry, gridsOf, consumesLabel]
      | cons first rest =>
        cases first with
        | num n => simp [processEntry, gridsOf, consumesLabel]
        | str t => simp [processEntry, gridsOf, consumesLabel]
        | other => simp [processEntry, gridsOf, consumesLabel]
        | arr ys =>
          cases ys with
          | nil => simp [processEntry, gridsOf, consumesLabel]
          | cons f0 ftail =>
            cases f0 with
            | arr zs => simp [processEntry, gridsOf, consumesLabel]
            | num n =>
              cases hg : asGrid100 (Json.arr (Json.arr (Json.num n :: ftail) :: rest)) with
              | none => simp [processEntry, gridsOf, consumesLabel, hg]
              | some g => simp [processEntry, gridsOf, consumesLabel, hg]
            | str t =>
              cases hg : asGrid100 (Json.arr (Json.arr (Json.str t :: ftail) :: rest)) with
              | none => simp [processEntry, gridsOf, consumesLabel, hg]
              | some g => simp [processEntry, gridsOf, consumesLabel, hg]
            | other =>
              cases hg : asGrid100 (Json.arr (Json.arr (Json.other :: ftail) :: rest)) with
              | none => simp [processEntry, gridsOf, consumesLabel, hg]
              | some g => simp [processEntry, gridsOf, consumesLabel, hg]

/-- The images the whole loop collects, entry by entry in order. -/
def specImgs : List (Nat × Stored) → List Grid
  | [] => []
  | (_, e) :: rest => gridsOf e ++ specImgs rest

/-- The labels the whole loop collects, with `n` the next fresh label. -/
def specLabels : List (Nat × Stored) → Nat → List Nat
  | [], _ => []
  | (_, e) :: rest, n =>
    if consumesLabel e then (gridsOf e).map (fun _ => n) ++ specLabels rest (n + 1)
    else specLabels rest n

/-- The label-to-user map the whole loop builds. -/
def specLabelMap : List (Nat × Stored) → List Nat
  | [] => []
  | (uid, e) :: rest =>
    if consumesLabel e then uid :: specLabelMap rest else specLabelMap rest

/-- The labelled training pairs, with `n` the next fresh label. -/
def specPairs : List (Nat × Stored) → Nat → List (Grid × Nat)
  | [], _ => []
  | (_, e) :: rest, n =>
    if consumesLabel e then (gridsOf e).map (fun g => (g, n)) ++ specPairs rest (n + 1)
    else specPairs rest n

theorem foldl_processEntry_spec (known : List (Nat × Stored)) (s : TrainState) :
    known.foldl processEntry s =
      ⟨s.imgs ++ specImgs known,
       s.labels ++ specLabels known s.labelMap.length,
       s.labelMap ++ specLabelMap known⟩ := by
  induction known generalizing s with
  | nil => simp [specImgs, specLabels, specLabelMap]
  | cons p rest ih =>
    obtain ⟨uid, e⟩ := p
    rw [List.foldl_cons, processEntry_spec, ih]
    by_cases hc : consumesLabel e = true
    · simp [specImgs, specLabels, specLabelMap, hc, List.append_assoc]
    · have h0 : consumesLabel e = false := by
        simpa using hc
      simp [specImgs, specLabels, specLabelMap, h0, gridsOf_eq_nil e h0]

theorem trainFold_spec (known : List (Nat × Stored)) :
    trainFold known = ⟨specImgs known, specLabels known 0, specLabelMap known⟩ := by
  simpa [trainFold] using foldl_processEntry_spec known ⟨[], [], []⟩

theorem zip_self_map_const {α β : Type} (l : List α) (b : β) :
    l.zip (l.map (fun _ => b)) = l.map (fun a => (a, b)) := by
  induction l with
  | nil => rfl
  | cons x xs ih => simp only [List.map_cons, List.zip_cons_cons, ih]

theorem length_specLabels (known : List (Nat × Stored)) (n : Nat) :
    (specImgs known).length = (specLabels known n).length := by
  induction known generalizing n with
  | nil => rfl
  | cons p rest ih =>
    obtain ⟨uid, e⟩ := p
    by_cases hc : consumesLabel e = true
    · simp [specImgs, specLabels, hc, ih (n + 1)]
    · have h0 : consumesLabel e = false := by
        simpa using hc
      simp [specImgs, specLabels, h0, gridsOf_eq_nil e h0, ih n]

theorem zip_spec (known : List (Nat × Stored)) (n : Nat) :
    (specImgs known).zip (specLabels known n) = specPairs known n := by
  induction known generalizing n with
  | nil => rfl
  | cons p rest ih =>
    obtain ⟨uid, e⟩ := p
    by_cases hc : consumesLabel e = true
    · simp only [specImgs, specLabels, specPairs, hc, if_true]
      rw [List.zip_append (by simp), zip_self_map_const, ih (n + 1)]
    · have h0 : consumesLabel e = false := by
        simpa using hc
      simp [specImgs, specLabels, specPairs, h0, gridsOf_eq_nil e h0, ih n]

theorem specPairs_mem (known : List (Nat × Stored)) (uid : Nat) (e : Stored) (g : Grid)
    (hmem : (uid, e) ∈ known) (hg : g ∈ gridsOf e) (n : Nat) :
    ∃ l, n ≤ l ∧ (g, l) ∈ specPairs known n
      ∧ (specLabelMap known)[l - n]? = some uid := by
  induction known generalizing n with
  | nil => cases hmem
  | cons p rest ih =>
    rcases List.mem_cons.mp hmem with heq | htail
    · obtain rfl : p = (uid, e) := heq.symm
      have hc : consumesLabel e = true := consumesLabel_of_mem e g hg
      refine ⟨n, Nat.le_refl n, ?_, ?_⟩
      · simp only [specPairs, hc, if_true]
        exact List.mem_append_left _ (List.mem_map.mpr ⟨g, hg, rfl⟩)
      · simp [specLabelMap, hc]
    · obtain ⟨uid2, e2⟩ := p
      by_cases hc : consumesLabel e2 = true
      · obtain ⟨l, hln, hpair, hmap⟩ := ih htail (n + 1)
        refine ⟨l, Nat.le_of_succ_le hln, ?_, ?_⟩
        · simp only [specPairs, hc, if_true]
          exact List.mem_append_right _ hpair
        · have hidx : l - n = (l - (n + 1)) + 1 := by omega
          simp only [specLabelMap, hc, if_true, hidx, List.getElem?_cons_succ]
          exact hmap
      · have h0 : consumesLabel e2 = false := by
          simpa using hc
        obtain ⟨l, hln, hpair, hmap⟩ := ih htail n
        exact ⟨l, hln, by simpa [specPairs, h0] using hpair,
          by simpa [specLabelMap, h0] using hmap⟩

theorem processEntry_no_valid (s : TrainState) (uid : Nat) (j : Json)
    (h1 : asGrid100 j = none) (h2 : ∀ x ∈ jsonElems j, asGrid100 x = none) :
    (processEntry s (uid, Stored.parsed j)).imgs = s.imgs
    ∧ (processEntry s (uid, Stored.parsed j)).labels = s.labels := by
  have h := processEntry_spec s uid (Stored.parsed j)
  rw [h]
  have hgrids : gridsOf (Stored.parsed j) = [] := by
    cases j with
    | num n => rfl
    | str t => rfl
    | other => rfl
    | arr xs =>
      cases xs with
      | nil => rfl
      | cons first rest =>
        cases first with
        | num n => rfl
        | str t => rfl
        | other => rfl
        | arr ys =>
          cases ys with
          | nil => rfl
          | cons f0 ftail =>
            cases f0 with
            | arr zs =>
              simp only [gridsOf]
              rw [List.filterMap_eq_nil_iff]
              intro a ha
              exact h2 a ha
            | num n => simp [gridsOf, h1]
            | str t => simp [gridsOf, h1]
            | other => simp [gridsOf, h1]
  simp [hgrids]

/-! Concrete data: a sample environment whose external operations are
executable (a detector that always reports one region, nearest-neighbour
resampling to 100x100, a constant classifier), an environment with the
feature flag off, and small enrollment databases in both persisted
shapes.  These instantiate the hypotheses of the claim theorems. -/

/-- A nearest-neighbour stand-in for `cv2.resize(img, (100, 100))`: it
errors on an empty source and otherwise produces a 100x100 grid. -/
def resizeNearest (g : Grid) : Except String Grid :=
  match g with
  | [] => Except.error "empty source image"
  | r0 :: rs =>
    if r0.length = 0 then Except.error "empty source image"
    else
      Except.ok ((List.range 100).map (fun i =>
        (List.range 100).map (fun j =>
          ((r0 :: rs).getD (i * (r0 :: rs).length / 100) []).getD
            (j * r0.length / 100) 0)))

theorem resizeNearest_dims (g img : Grid) (h : resizeNearest g = Except.ok img) :
    img.length = 100 ∧ ∀ row ∈ img, row.length = 100 := by
  cases g with
  | nil => simp [resizeNearest] at h
  | cons r0 rs =>
    by_cases h0 : r0.length = 0
    · simp [resizeNearest, h0] at h
    · simp only [resizeNearest, if_neg h0] at h
      injection h with h2
      subst h2
      refine ⟨by simp, ?_⟩
      intro row hrow
      simp only [List.mem_map] at hrow
      obtain ⟨i, _, rfl⟩ := hrow
      simp

def demoRect : Rect := ⟨0, 0, 2, 2⟩

def demoEnv : Env :=
  ⟨true, fun _ => Except.ok [demoRect], resizeNearest, fun _ _ => Except.ok (0, 50)⟩

def offEnv : Env :=
  ⟨false, fun _ => Except.ok [], fun g => Except.ok g, fun _ _ => Except.error "not trained"⟩

def demoGrid : Grid := [[5, 5], [5, 5]]

def demoPhoto : Photo := Photo.gray demoGrid

def demoImg : Grid :=
  match resizeNearest (crop demoGrid demoRect) with
  | Except.ok img => img
  | Except.error _ => []

def grid100 (v : Nat) : Grid := List.replicate 100 (List.replicate 100 v)

def json100 (v : Int) : Json :=
  Json.arr (List.replicate 100 (Json.arr (List.replicate 100 (Json.num v))))

/-- An enrollment blob in the legacy single-sample shape. -/
def demoSingle : Stored := Stored.parsed (json100 1)

/-- An enrollment blob in the current multi-sample shape. -/
def demoMulti : Stored := Stored.parsed (Json.arr [json100 2])

def oneKnown : List (Nat × Stored) := [(7, demoSingle)]

def demoKnown : List (Nat × Stored) := [(7, demoSingle), (9, demoMulti)]

theorem demoEnv_resize_dims (src img : Grid) (h : demoEnv.resize src = Except.ok img) :
    img.length = 100 ∧ ∀ row ∈ img, row.length = 100 :=
  resizeNearest_dims src img h

/-- The empty-training-set failure message differs from every
caught-exception message of the recognizer (they start with different
characters). -/
theorem msgNoValid_ne_recognizeError (e : String) : msgNoValid ≠ msgRecognizeError e := by
  intro h
  have h2 : msgNoValid.data.head? = (msgRecognizeError e).data.head? := by rw [h]
  have h3 : msgNoValid.data.head? = some 'N' := rfl
  have h4 : (msgRecognizeError e).data.head? = some 'E' := rfl
  rw [h3, h4] at h2
  exact absurd h2 (by decide)

/-! The claim theorems. -/

/-- C1: for every candidate sample, enrollment mapping and
caller-supplied tolerance in the interval from 0 to 1, the Matcher
accepts a match exactly when the classifier's distance score (reported
in the `distance` field exactly when prediction ran) is strictly less
than `tolerance * 100`, and otherwise the result reports no match; this
holds both in `recognize_face_from_database` and in `compare_faces`. -/
theorem match_iff_distance_lt_scaled_tolerance
    (env : Env) (photo : Photo) (known : List (Nat × Stored)) (kj : Stored)
    (tol d d2 : Rat) (_htol0 : 0 ≤ tol) (_htol1 : tol ≤ 1)
    (hr : (recognize_face_from_database env photo known tol).distance = some d)
    (hc : (compare_faces env kj photo tol).distance = some d2) :
    ((recognize_face_from_database env photo known tol).recognized = true ↔ d < tol * 100)
  ∧ ((recognize_face_from_database env photo known tol).recognized = false ↔ ¬ d < tol * 100)
  ∧ ((compare_faces env kj photo tol).matched = true ↔ d2 < tol * 100)
  ∧ ((compare_faces env kj photo tol).matched = false ↔ ¬ d2 < tol * 100) := by
  have hrec :
      ((recognize_face_from_database env photo known tol).recognized = true ↔ d < tol * 100)
      ∧ ((recognize_face_from_database env photo known tol).recognized = false
          ↔ ¬ d < tol * 100) := by
    rcases recognize_cases env photo known tol with ⟨msg, hfail⟩ |
      ⟨q, label, conf, _, _, _, _, _, _, heq⟩
    · rw [hfail] at hr
      simp [recognizeFail] at hr
    · rw [heq] at hr
      simp only [] at hr
      obtain rfl : conf = d := by
        simpa using hr
      rw [heq]
      constructor
      · simp
      · simp
  have hcmp :
      ((compare_faces env kj photo tol).matched = true ↔ d2 < tol * 100)
      ∧ ((compare_faces env kj photo tol).matched = false ↔ ¬ d2 < tol * 100) := by
    rcases compare_cases env kj photo tol with ⟨msg, hfail⟩ |
      ⟨ki, q, label, conf, _, _, _, _, _, heq⟩
    · rw [hfail] at hc
      simp at hc
    · rw [heq] at hc
      obtain rfl : conf = d2 := by
        simpa using hc
      rw [heq]
      constructor
      · simp
      · simp
  exact ⟨hrec.1, hrec.2, hcmp.1, hcmp.2⟩

theorem match_iff_distance_lt_scaled_tolerance_witness :
    ((recognize_face_from_database demoEnv demoPhoto oneKnown 1).recognized = true
       ↔ (50 : Rat) < 1 * 100)
  ∧ ((recognize_face_from_database demoEnv demoPhoto oneKnown 1).recognized = false
       ↔ ¬ (50 : Rat) < 1 * 100)
  ∧ ((compare_faces demoEnv demoSingle demoPhoto 1).matched = true ↔ (50 : Rat) < 1 * 100)
  ∧ ((compare_faces demoEnv demoSingle demoPhoto 1).matched = false
       ↔ ¬ (50 : Rat) < 1 * 100) :=
  match_iff_distance_lt_scaled_tolerance demoEnv demoPhoto oneKnown demoSingle 1 50 50
    (by norm_num) (by norm_num) (by decide) (by decide)

/-- C2: stored entries whose sample fails to parse as JSON, or whose
grid dimensions differ from the fixed 100x100 size, are skipped and do
not cause the call to fail (the loop state keeps its images and labels);
the call fails with the 'No valid face encodings in database' result
exactly when the filtered training set is empty. -/
theorem corrupt_entries_skipped_not_fatal
    (env : Env) (photo : Photo) (known : List (Nat × Stored)) (tol : Rat)
    (s : TrainState) (uid : Nat) (j : Json)
    (hav : env.available = true) (hk : known ≠ [])
    (hs : (generate_face_encoding env photo).success = true) :
    processEntry s (uid, Stored.malformed) = s
  ∧ processEntry s (uid, Stored.empty) = s
  ∧ ((asGrid100 j = none ∧ ∀ x ∈ jsonElems j, asGrid100 x = none) →
      (processEntry s (uid, Stored.parsed j)).imgs = s.imgs
      ∧ (processEntry s (uid, Stored.parsed j)).labels = s.labels)
  ∧ (recognize_face_from_database env photo known tol = recognizeFail msgNoValid
      ↔ (trainFold known).imgs = []) := by
  refine ⟨rfl, rfl, fun h => processEntry_no_valid s uid j h.1 h.2, ?_⟩
  rcases generate_cases env photo with ⟨hs2, _⟩ | ⟨g, r, img, _, _, _, _, heq⟩
  · rw [hs] at hs2
    cases hs2
  · have he : (generate_face_encoding env photo).encoding = some img := by
      rw [heq]
    constructor
    · intro hfail
      by_contra ht
      cases hp : env.predictTrain
          ((trainFold known).imgs.zip (trainFold known).labels) img with
      | error e =>
        rw [recognize_predict_error env photo known tol img e hav hk hs he ht hp] at hfail
        have hmsg : msgRecognizeError e = msgNoValid := by
          simpa [recognizeFail, RecognizeResult.mk.injEq] using hfail
        exact msgNoValid_ne_recognizeError e hmsg.symm
      | ok p =>
        obtain ⟨label, conf⟩ := p
        rw [recognize_predict_ok env photo known tol img label conf hav hk hs he ht hp]
          at hfail
        simp [recognizeFail, RecognizeResult.mk.injEq] at hfail
    · intro ht
      exact recognize_no_valid env photo known tol img hav hk hs he ht

theorem corrupt_entries_skipped_not_fatal_witness :
    processEntry ⟨[], [], []⟩ (3, Stored.malformed) = ⟨[], [], []⟩
  ∧ processEntry ⟨[], [], []⟩ (3, Stored.empty) = ⟨[], [], []⟩
  ∧ ((asGrid100 (Json.num 0) = none
        ∧ ∀ x ∈ jsonElems (Json.num 0), asGrid100 x = none) →
      (processEntry ⟨[], [], []⟩ (3, Stored.parsed (Json.num 0))).imgs = ([] : List Grid)
      ∧ (processEntry ⟨[], [], []⟩ (3, Stored.parsed (Json.num 0))).labels = ([] : List Nat))
  ∧ (recognize_face_from_database demoEnv demoPhoto oneKnown 1 = recognizeFail msgNoValid
      ↔ (trainFold oneKnown).imgs = []) :=
  corrupt_entries_skipped_not_fatal demoEnv demoPhoto oneKnown 1 ⟨[], [], []⟩ 3 (Json.num 0)
    rfl (by simp [oneKnown]) rfl

/-- C3: `recognize_face_from_database` reports `success = true` exactly
when the pipeline ran to completion: feature available, non-empty
enrollment mapping, query photo encoded, non-empty filtered training
set, and classifier training and prediction returned without an
exception — independent of whether the match threshold was met (the
right-hand side does not mention the tolerance). -/
theorem recognize_success_iff (env : Env) (photo : Photo)
    (known : List (Nat × Stored)) (tol : Rat) :
    (recognize_face_from_database env photo known tol).success = true ↔
      (env.available = true ∧ known ≠ []
       ∧ ∃ q, (generate_face_encoding env photo).success = true
         ∧ (generate_face_encoding env photo).encoding = some q
         ∧ (trainFold known).imgs ≠ []
         ∧ ∃ p, env.predictTrain ((trainFold known).imgs.zip (trainFold known).labels) q
             = Except.ok p) := by
  constructor
  · intro h
    rcases recognize_cases env photo known tol with ⟨msg, hfail⟩ |
      ⟨q, label, conf, hA, hk, hs, he, ht, hp, heq⟩
    · rw [hfail] at h
      simp [recognizeFail] at h
    · exact ⟨hA, hk, q, hs, he, ht, (label, conf), hp⟩
  · rintro ⟨hA, hk, q, hs, he, ht, ⟨label, conf⟩, hp⟩
    rw [recognize_predict_ok env photo known tol q label conf hA hk hs he ht hp]

/-- C4: on a decoded photograph the Encoder follows the detector-output
decision policy: zero regions is the no-face failure with `face_count`
0 and no sample; two or more regions is the multiple-faces failure
carrying the region count and no sample; exactly one region succeeds
with the sample obtained by cropping that region's bounding box and
resizing it to the fixed 100x100 dimensions. -/
theorem encoder_decision_policy (env : Env) (g : Grid)
    (hav : env.available = true)
    (hres : ∀ src img, env.resize src = Except.ok img →
      img.length = 100 ∧ ∀ row ∈ img, row.length = 100) :
    (env.detect g = Except.ok [] →
       generate_face_encoding env (Photo.gray g) = ⟨false, none, msgNoFace, 0⟩)
  ∧ (∀ faces, env.detect g = Except.ok faces → 2 ≤ faces.length →
       generate_face_encoding env (Photo.gray g)
         = ⟨false, none, msgMultiFaces faces.length, faces.length⟩)
  ∧ (∀ r img, env.detect g = Except.ok [r] → env.resize (crop g r) = Except.ok img →
       generate_face_encoding env (Photo.gray g) = ⟨true, some img, msgEncodeOk, 1⟩
       ∧ img.length = 100 ∧ ∀ row ∈ img, row.length = 100) := by
  refine ⟨?_, ?_, ?_⟩
  · intro hd
    simp [generate_face_encoding, hav, hd]
  · intro faces hd hlen
    match faces, hlen with
    | f1 :: f2 :: fs, _ =>
      simp [generate_face_encoding, hav, hd]
  · intro r img hd hrz
    exact ⟨generate_one_face env g r img hav hd hrz, hres (crop g r) img hrz⟩

theorem encoder_decision_policy_witness :
    generate_face_encoding demoEnv (Photo.gray demoGrid) = ⟨true, some demoImg, msgEncodeOk, 1⟩
    ∧ demoImg.length = 100 ∧ ∀ row ∈ demoImg, row.length = 100 :=
  (encoder_decision_policy demoEnv demoGrid rfl demoEnv_resize_dims).2.2 demoRect demoImg
    rfl rfl

/-- C5: the Matcher accepts both persisted shapes (current JSON array of
2-D grids and legacy bare 2-D grid), also mixed across identities in
one call: every valid 100x100 grid an entry contributes (`gridsOf`, the
spec-side description of both shapes) ends up in the training set paired
with a label that the label map resolves back to its owning identity. -/
theorem both_shapes_feed_training (known : List (Nat × Stored)) (uid : Nat)
    (e : Stored) (g : Grid) (hmem : (uid, e) ∈ known) (hg : g ∈ gridsOf e) :
    ∃ l, (g, l) ∈ (trainFold known).imgs.zip (trainFold known).labels
      ∧ (trainFold known).labelMap[l]? = some uid := by
  obtain ⟨l, hln, hpair, hmap⟩ := specPairs_mem known uid e g hmem hg 0
  refine ⟨l, ?_, ?_⟩
  · have hz : (trainFold known).imgs.zip (trainFold known).labels = specPairs known 0 := by
      rw [trainFold_spec]
      exact zip_spec known 0
    rw [hz]
    exact hpair
  · have hm : (trainFold known).labelMap = specLabelMap known := by
      rw [trainFold_spec]
    rw [hm]
    simpa using hmap

theorem both_shapes_feed_training_witness :
    (∃ l, (grid100 1, l) ∈ (trainFold demoKnown).imgs.zip (trainFold demoKnown).labels
       ∧ (trainFold demoKnown).labelMap[l]? = some 7)
  ∧ (∃ l, (grid100 2, l) ∈ (trainFold demoKnown).imgs.zip (trainFold demoKnown).labels
       ∧ (trainFold demoKnown).labelMap[l]? = some 9) :=
  ⟨both_shapes_feed_training demoKnown 7 demoSingle (grid100 1)
      (List.Mem.head _)
      (by
        have h : gridsOf demoSingle = [grid100 1] := by decide
        rw [h]
        exact List.Mem.head _),
   both_shapes_feed_training demoKnown 9 demoMulti (grid100 2)
      (List.Mem.tail _ (List.Mem.head _))
      (by
        have h : gridsOf demoMulti = [grid100 2] := by decide
        rw [h]
        exact List.Mem.head _)⟩

/-- C6: with the feature available, calling
`recognize_face_from_database` on an empty enrollment mapping returns
the structured 'No registered faces in database' failure (which carries
`recognized = false`), for every query photograph and tolerance and
whatever the classifier would do — no training happens. -/
theorem empty_database_fast_fail (env : Env) (photo : Photo) (tol : Rat)
    (hav : env.available = true) :
    recognize_face_from_database env photo [] tol = recognizeFail msgNoRegistered
    ∧ (recognizeFail msgNoRegistered).recognized = false :=
  ⟨recognize_empty_db env photo tol hav, rfl⟩

theorem empty_database_fast_fail_witness :
    recognize_face_from_database demoEnv demoPhoto [] recognize_default_tolerance
        = recognizeFail msgNoRegistered
    ∧ (recognizeFail msgNoRegistered).recognized = false :=
  empty_database_fast_fail demoEnv demoPhoto recognize_default_tolerance rfl

/-- C7: whenever a match is accepted, the reported `user_id` is the
value the label map built during training associates with the
classifier's predicted label; whenever the match is rejected, `user_id`
is none. -/
theorem accepted_match_resolves_label (env : Env) (photo : Photo)
    (known : List (Nat × Stored)) (tol : Rat) :
    ((recognize_face_from_database env photo known tol).recognized = false →
       (recognize_face_from_database env photo known tol).user_id = none)
  ∧ ((recognize_face_from_database env photo known tol).recognized = true →
       ∃ q label confidence,
         (generate_face_encoding env photo).encoding = some q
         ∧ env.predictTrain ((trainFold known).imgs.zip (trainFold known).labels) q
             = Except.ok (label, confidence)
         ∧ (recognize_face_from_database env photo known tol).user_id
             = (trainFold known).labelMap[label]?) := by
  rcases recognize_cases env photo known tol with ⟨msg, hfail⟩ |
    ⟨q, label, conf, hA, hk, hs, he, ht, hp, heq⟩
  · rw [hfail]
    exact ⟨fun _ => rfl, fun h => by simp [recognizeFail] at h⟩
  · rw [heq]
    constructor
    · intro hrec
      by_cases hlt : conf < tol * 100
      · simp only [decide_eq_false_iff_not] at hrec
        exact absurd hlt hrec
      · simp [hlt]
    · intro hrec
      by_cases hlt : conf < tol * 100
      · exact ⟨q, label, conf, he, hp, by simp [hlt]⟩
      · simp only [decide_eq_true_eq] at hrec
        exact absurd hrec hlt

theorem accepted_match_resolves_label_witness :
    (recognize_face_from_database offEnv demoPhoto demoKnown 1).user_id = none :=
  (accepted_match_resolves_label offEnv demoPhoto demoKnown 1).1 rfl

/-- C8: every entry point returns a structured result on every input and
converts internal faults into a `success = false` result with a
human-readable message: the unavailable-feature gate, a raising
detector, a raising resize, an unloadable known encoding, and a raising
classifier all map to the corresponding failure records. -/
theorem faults_become_structured_results (env : Env) (g : Grid) (photo : Photo)
    (kj : Stored) (known : List (Nat × Stored)) (tol : Rat) (e : String) :
    (env.available = false →
       generate_face_encoding env photo = ⟨false, none, msgUnavailableEncode, 0⟩
       ∧ compare_faces env kj photo tol = ⟨false, false, none, msgUnavailable⟩
       ∧ recognize_face_from_database env photo known tol = recognizeFail msgUnavailable)
  ∧ (env.available = true → env.detect g = Except.error e →
       generate_face_encoding env (Photo.gray g) = ⟨false, none, msgEncodeError e, 0⟩)
  ∧ (∀ r, env.available = true → env.detect g = Except.ok [r] →
       env.resize (crop g r) = Except.error e →
       generate_face_encoding env (Photo.gray g) = ⟨false, none, msgEncodeError e, 0⟩)
  ∧ (env.available = true → npLoad kj = Except.error e →
       compare_faces env kj photo tol = ⟨false, false, none, msgCompareError e⟩)
  ∧ (∀ q, env.available = true → known ≠ []
       → (generate_face_encoding env photo).success = true
       → (generate_face_encoding env photo).encoding = some q
       → (trainFold known).imgs ≠ []
       → env.predictTrain ((trainFold known).imgs.zip (trainFold known).labels) q
           = Except.error e
       → recognize_face_from_database env photo known tol
           = recognizeFail (msgRecognizeError e)) := by
  refine ⟨?_, ?_, ?_, ?_, ?_⟩
  · intro hoff
    exact ⟨generate_unavailable env photo hoff, compare_unavailable env kj photo tol hoff,
      recognize_unavailable env photo known tol hoff⟩
  · intro hav hd
    simp [generate_face_encoding, hav, hd]
  · intro r hav hd hrz
    simp [generate_face_encoding, hav, hd, hrz]
  · intro hav hl
    exact compare_load_error env kj photo tol e hav hl
  · intro q hav hk hs he ht hp
    exact recognize_predict_error env photo known tol q e hav hk hs he ht hp

theorem faults_become_structured_results_witness :
    generate_face_encoding offEnv Photo.empty = ⟨false, none, msgUnavailableEncode, 0⟩
    ∧ compare_faces offEnv Stored.empty Photo.empty 1 = ⟨false, false, none, msgUnavailable⟩
    ∧ recognize_face_from_database offEnv Photo.empty [] 1 = recognizeFail msgUnavailable :=
  (faults_become_structured_results offEnv [] Photo.empty Stored.empty [] 1 "boom").1 rfl

/-- C9: the two matching entry points default the tolerance parameter
inconsistently: `compare_faces` defaults it to 0.6 while
`recognize_face_from_database` defaults it to 0.7, so any distance score
in the interval from 60 to 70 is rejected under the former default and
accepted under the latter. -/
theorem default_tolerances_differ :
    compare_faces_default_tolerance = 3 / 5
  ∧ recognize_default_tolerance = 7 / 10
  ∧ compare_faces_default_tolerance ≠ recognize_default_tolerance
  ∧ ∀ d : Rat, 60 ≤ d → d < 70 →
      (¬ d < compare_faces_default_tolerance * 100)
      ∧ d < recognize_default_tolerance * 100 := by
  refine ⟨by norm_num [compare_faces_default_tolerance],
    by norm_num [recognize_default_tolerance],
    by norm_num [compare_faces_default_tolerance, recognize_default_tolerance], ?_⟩
  intro d h1 h2
  constructor
  · have h60 : compare_faces_default_tolerance * 100 = 60 := by
      norm_num [compare_faces_default_tolerance]
    rw [h60]
    exact not_lt.mpr h1
  · have h70 : recognize_default_tolerance * 100 = 70 := by
      norm_num [recognize_default_tolerance]
    rw [h70]
    exact h2

theorem default_tolerances_differ_witness :
    (¬ (65 : Rat) < compare_faces_default_tolerance * 100)
    ∧ (65 : Rat) < recognize_default_tolerance * 100 :=
  default_tolerances_differ.2.2.2 65 (by norm_num) (by norm_num)

/-- C10: on every failure path of `recognize_face_from_database` the
result also reports `recognized = false`, `user_id = none` and
`distance = none`, and on every failure path of `compare_faces` the
result reports `matched = false` and `distance = none`: a failed call
never carries a partial identity or score. -/
theorem failure_reports_no_partial_result (env : Env) (photo : Photo) (kj : Stored)
    (known : List (Nat × Stored)) (tol : Rat) :
    ((recognize_face_from_database env photo known tol).success = false →
       (recognize_face_from_database env photo known tol).recognized = false
       ∧ (recognize_face_from_database env photo known tol).user_id = none
       ∧ (recognize_face_from_database env photo known tol).distance = none)
  ∧ ((compare_faces env kj photo tol).success = false →
       (compare_faces env kj photo tol).matched = false
       ∧ (compare_faces env kj photo tol).distance = none) := by
  constructor
  · intro h
    rcases recognize_cases env photo known tol with ⟨msg, hfail⟩ |
      ⟨q, label, conf, _, _, _, _, _, _, heq⟩
    · rw [hfail]
      exact ⟨rfl, rfl, rfl⟩
    · rw [heq] at h
      simp at h
  · intro h
    rcases compare_cases env kj photo tol with ⟨msg, hfail⟩ |
      ⟨ki, q, label, conf, _, _, _, _, _, heq⟩
    · rw [hfail]
      exact ⟨rfl, rfl⟩
    · rw [heq] at h
      simp at h

theorem failure_reports_no_partial_result_witness :
    (recognize_face_from_database offEnv Photo.undecodable demoKnown 1).recognized = false
    ∧ (recognize_face_from_database offEnv Photo.undecodable demoKnown 1).user_id = none
    ∧ (recognize_face_from_database offEnv Photo.undecodable demoKnown 1).distance = none :=
  (failure_reports_no_partial_result offEnv Photo.undecodable Stored.empty demoKnown 1).1 rfl

end FaceRec

